import Mathlib

/-!
Verification of the rust-tunnel gateway (bluelibs/runner).

This file gives a shallow embedding of the parts of the source that the
verified properties talk about:

* `src/rust-tunnel/src/worker_protocol.rs` — the wire envelopes exchanged
  with the Node.js worker, together with a model of the serde-derived
  JSON data binding (`encodeWorkerRequest`/`decodeWorkerRequest`,
  `encodeWorkerResponse`/`decodeWorkerResponse`).
* `src/rust-tunnel/src/node_worker.rs` — the response handling of
  `execute_task`/`emit_event` and the reader loop that demultiplexes the
  worker's stdout lines into the pending-response table.
* `src/rust-tunnel/src/task_registry.rs` — the task/event registry.
* `src/rust-tunnel/src/handlers.rs` — the HTTP handlers (allow-list gate,
  discovery).
* `src/rust-tunnel/src/auth.rs` — header-token authentication.
* `src/rust-tunnel/src/error.rs` and `src/rust-tunnel/src/models.rs` —
  the error taxonomy and the HTTP envelopes.

JSON values are modelled by the inductive `Json` below; numbers are
modelled as integers, which covers every numeric value the protocol
itself produces (`id : u64`, `code : u16`).  Machine integers are Nat
with explicit range bounds where the source uses `u64`/`u16`.
-/

/-- Model of serde_json Value: JSON trees, with numbers as integers. -/
inductive Json where
  | null : Json
  | bool (b : Bool) : Json
  | num (n : Int) : Json
  | str (s : String) : Json
  | arr (elems : List Json) : Json
  | obj (fields : List (String × Json)) : Json
deriving Repr

/-- Field lookup in a list of JSON object members, first match wins. -/
def getFieldList : List (String × Json) → String → Option Json
  | [], _ => none
  | (k, v) :: rest, key => if k = key then some v else getFieldList rest key

/-- Field lookup on a JSON value: on objects find the named member, on
everything else fail (models name-driven access of serde deserializers). -/
def Json.getField : Json → String → Option Json
  | .obj fields, key => getFieldList fields key
  | _, _ => none

/-- Embeds struct RequestContext of worker_protocol.rs: the HTTP request
context forwarded to the worker.  The two HashMap String String fields are
modelled as association lists. -/
structure RequestContext where
  method : String
  path : String
  headers : List (String × String)
  query : List (String × String)
deriving Repr, DecidableEq

/-- Embeds enum WorkerRequest of worker_protocol.rs, the request wire
envelope (internally tagged by the field `type`, lowercase tags). -/
inductive WorkerRequest where
  | auth (id : Nat) (context : RequestContext)
  | task (id : Nat) (taskId : String) (input : Json) (context : RequestContext)
  | event (id : Nat) (eventId : String) (payload : Json) (context : RequestContext)
  | shutdown (id : Nat)
deriving Repr

/-- Embeds fn WorkerRequest::id of worker_protocol.rs. -/
def WorkerRequest.id : WorkerRequest → Nat
  | .auth i _ => i
  | .task i _ _ _ => i
  | .event i _ _ _ => i
  | .shutdown i => i

/-- Embeds struct WorkerError of worker_protocol.rs (`code` is u16). -/
structure WorkerError where
  message : String
  code : Nat
  codeName : String
deriving Repr, DecidableEq

/-- Embeds struct WorkerResponse of worker_protocol.rs, the response wire
envelope; `result` and `error` are optional fields that are skipped when
absent (serde skip_serializing_if Option.is_none). -/
structure WorkerResponse where
  id : Nat
  ok : Bool
  result : Option Json
  error : Option WorkerError
deriving Repr

/-! ## Protocol codec: model of the serde-derived JSON data binding

The Rust side serializes with serde_json::to_string and deserializes with
serde_json::from_str via the derived Serialize/Deserialize instances on
WorkerRequest/WorkerResponse.  The definitions below model that data
binding at the level of JSON trees: `encode*` produces the JSON value the
derived serializer emits, `decode*` is the derived deserializer (field
access by name, unknown fields ignored, Option fields defaulting to none
when missing and decoding JSON null to none). -/

/-- Decode a u64: an integral JSON number within the u64 range
(the bound is the literal 2 to the 64). -/
def decodeU64 : Json → Option Nat
  | .num n => if 0 ≤ n ∧ n < 18446744073709551616 then some n.toNat else none
  | _ => none

/-- Decode a u16: an integral JSON number within the u16 range
(the bound is the literal 2 to the 16). -/
def decodeU16 : Json → Option Nat
  | .num n => if 0 ≤ n ∧ n < 65536 then some n.toNat else none
  | _ => none

/-- Decode a Rust String field: only a JSON string is accepted. -/
def decodeStr : Json → Option String
  | .str s => some s
  | _ => none

/-- Decode a bool field: only a JSON boolean is accepted. -/
def decodeBool : Json → Option Bool
  | .bool b => some b
  | _ => none

/-- Encode a HashMap String String as a JSON object (association order
preserved by the list model). -/
def encodeStringMap (l : List (String × String)) : Json :=
  .obj (l.map fun p => (p.1, .str p.2))

/-- Decode the members of a JSON object into String pairs; every value
must be a JSON string. -/
def decodeStringPairs : List (String × Json) → Option (List (String × String))
  | [] => some []
  | (k, .str v) :: rest => (decodeStringPairs rest).map (fun l => (k, v) :: l)
  | _ => none

/-- Decode a HashMap String String field. -/
def decodeStringMap : Json → Option (List (String × String))
  | .obj fields => decodeStringPairs fields
  | _ => none

/-- Serializer for RequestContext (fields in declaration order). -/
def encodeRequestContext (c : RequestContext) : Json :=
  .obj [("method", .str c.method), ("path", .str c.path),
        ("headers", encodeStringMap c.headers), ("query", encodeStringMap c.query)]

/-- Deserializer for RequestContext: all four fields are required. -/
def decodeRequestContext (j : Json) : Option RequestContext :=
  ((j.getField "method").bind decodeStr).bind (fun m =>
    ((j.getField "path").bind decodeStr).bind (fun p =>
      ((j.getField "headers").bind decodeStringMap).bind (fun hs =>
        ((j.getField "query").bind decodeStringMap).map (fun qs => ⟨m, p, hs, qs⟩))))

/-- Serializer for WorkerRequest: internally tagged by `type` with
lowercase variant names; field names follow the serde renames
(`taskId`, `eventId`). -/
def encodeWorkerRequest : WorkerRequest → Json
  | .auth id ctx =>
      .obj [("type", .str "auth"), ("id", .num id), ("context", encodeRequestContext ctx)]
  | .task id taskId input ctx =>
      .obj [("type", .str "task"), ("id", .num id), ("taskId", .str taskId),
            ("input", input), ("context", encodeRequestContext ctx)]
  | .event id eventId payload ctx =>
      .obj [("type", .str "event"), ("id", .num id), ("eventId", .str eventId),
            ("payload", payload), ("context", encodeRequestContext ctx)]
  | .shutdown id =>
      .obj [("type", .str "shutdown"), ("id", .num id)]

/-- Deserializer for WorkerRequest: dispatch on the `type` tag, then read
each required field by name (a field of type Value accepts any JSON). -/
def decodeWorkerRequest (j : Json) : Option WorkerRequest :=
  ((j.getField "type").bind decodeStr).bind (fun t =>
    ((j.getField "id").bind decodeU64).bind (fun id =>
      if t = "auth" then
        ((j.getField "context").bind decodeRequestContext).map (fun c => .auth id c)
      else if t = "task" then
        ((j.getField "taskId").bind decodeStr).bind (fun taskId =>
          (j.getField "input").bind (fun input =>
            ((j.getField "context").bind decodeRequestContext).map (fun c =>
              .task id taskId input c)))
      else if t = "event" then
        ((j.getField "eventId").bind decodeStr).bind (fun eventId =>
          (j.getField "payload").bind (fun payload =>
            ((j.getField "context").bind decodeRequestContext).map (fun c =>
              .event id eventId payload c)))
      else if t = "shutdown" then
        some (.shutdown id)
      else none))

/-- Serializer for WorkerError. -/
def encodeWorkerError (e : WorkerError) : Json :=
  .obj [("message", .str e.message), ("code", .num e.code), ("codeName", .str e.codeName)]

/-- Deserializer for WorkerError: all three fields required. -/
def decodeWorkerError (j : Json) : Option WorkerError :=
  ((j.getField "message").bind decodeStr).bind (fun m =>
    ((j.getField "code").bind decodeU16).bind (fun code =>
      ((j.getField "codeName").bind decodeStr).map (fun cn => ⟨m, code, cn⟩)))

/-- Decode an Option Value field the way serde does: a missing field and a
JSON null both give none; anything else is kept. -/
def decodeOptionValue : Option Json → Option (Option Json)
  | none => some none
  | some .null => some none
  | some v => some (some v)

/-- Decode an Option WorkerError field: missing or JSON null give none,
anything else must parse as a WorkerError. -/
def decodeOptionError : Option Json → Option (Option WorkerError)
  | none => some none
  | some .null => some none
  | some v => (decodeWorkerError v).map some

/-- Serializer for WorkerResponse: `result` and `error` are omitted when
none (serde skip_serializing_if Option.is_none). -/
def encodeWorkerResponse (r : WorkerResponse) : Json :=
  .obj ([("id", .num r.id), ("ok", .bool r.ok)]
    ++ (match r.result with | some v => [("result", v)] | none => [])
    ++ (match r.error with | some e => [("error", encodeWorkerError e)] | none => []))

/-- Deserializer for WorkerResponse: `id` and `ok` required, `result` and
`error` optional (missing or null gives none). -/
def decodeWorkerResponse (j : Json) : Option WorkerResponse :=
  ((j.getField "id").bind decodeU64).bind (fun id =>
    ((j.getField "ok").bind decodeBool).bind (fun ok =>
      (decodeOptionValue (j.getField "result")).bind (fun res =>
        (decodeOptionError (j.getField "error")).map (fun err => ⟨id, ok, res, err⟩))))

/-! ## Text layer: model of serde_json parsing of one stdout line

The reader loop of node_worker.rs feeds each stdout line to
serde_json::from_str::WorkerResponse.  The fuel-based recursive descent
parser below models the text layer of serde_json at the precision the
claims need (integral numbers, strings with quote and backslash escapes);
`workerResponseFromStr` composes it with the data binding above. -/

/-- Drop leading JSON whitespace. -/
def skipWs : List Char → List Char
  | c :: rest => if c = ' ' ∨ c = '\t' ∨ c = '\n' ∨ c = '\r' then skipWs rest else c :: rest
  | [] => []

/-- Longest prefix of decimal digits, and the rest. -/
def takeDigits : List Char → (List Char × List Char)
  | [] => ([], [])
  | c :: rest =>
    if c.isDigit then
      let (ds, r) := takeDigits rest
      (c :: ds, r)
    else ([], c :: rest)

/-- Digits to the natural number they denote. -/
def digitsToNat (ds : List Char) : Nat :=
  ds.foldl (fun acc c => acc * 10 + (c.toNat - 48)) 0

/-- Parse the body of a JSON string after the opening quote; handles the
escapes for quote and backslash. -/
def parseStringBody : List Char → Option (List Char × List Char)
  | [] => none
  | '"' :: rest => some ([], rest)
  | '\\' :: '"' :: rest => (parseStringBody rest).map (fun p => ('"' :: p.1, p.2))
  | '\\' :: '\\' :: rest => (parseStringBody rest).map (fun p => ('\\' :: p.1, p.2))
  | '\\' :: _ => none
  | c :: rest => (parseStringBody rest).map (fun p => (c :: p.1, p.2))

mutual

/-- Parse one JSON value, returning it with the unconsumed rest. -/
def parseValue : Nat → List Char → Option (Json × List Char)
  | 0, _ => none
  | fuel + 1, cs =>
    match skipWs cs with
    | 'n' :: 'u' :: 'l' :: 'l' :: rest => some (.null, rest)
    | 't' :: 'r' :: 'u' :: 'e' :: rest => some (.bool true, rest)
    | 'f' :: 'a' :: 'l' :: 's' :: 'e' :: rest => some (.bool false, rest)
    | '"' :: rest => (parseStringBody rest).map (fun p => (.str (String.mk p.1), p.2))
    | '[' :: rest => parseElems fuel (skipWs rest)
    | '\x7b' :: rest => parseMembers fuel (skipWs rest)
    | '-' :: rest =>
      match takeDigits rest with
      | ([], _) => none
      | (ds, r) => some (.num (-(digitsToNat ds : Int)), r)
    | c :: rest =>
      if c.isDigit then
        let (ds, r) := takeDigits (c :: rest)
        some (.num (digitsToNat ds), r)
      else none
    | [] => none

/-- Parse array elements after the opening bracket (whitespace skipped). -/
def parseElems : Nat → List Char → Option (Json × List Char)
  | 0, _ => none
  | fuel + 1, cs =>
    match cs with
    | ']' :: rest => some (.arr [], rest)
    | _ =>
      match parseValue fuel cs with
      | none => none
      | some (v, r) => parseElemsTail fuel v [] (skipWs r)

/-- Parse the remaining comma-separated elements of an array. -/
def parseElemsTail : Nat → Json → List Json → List Char → Option (Json × List Char)
  | 0, _, _, _ => none
  | fuel + 1, v, acc, cs =>
    match cs with
    | ']' :: rest => some (.arr ((v :: acc).reverse), rest)
    | ',' :: rest =>
      match parseValue fuel (skipWs rest) with
      | none => none
      | some (w, r) => parseElemsTail fuel w (v :: acc) (skipWs r)
    | _ => none

/-- Parse object members after the opening brace (whitespace skipped). -/
def parseMembers : Nat → List Char → Option (Json × List Char)
  | 0, _ => none
  | fuel + 1, cs =>
    match cs with
    | '\x7d' :: rest => some (.obj [], rest)
    | _ =>
      match parseMember fuel cs with
      | none => none
      | some (kv, r) => parseMembersTail fuel kv [] (skipWs r)

/-- Parse one `"key": value` member. -/
def parseMember : Nat → List Char → Option ((String × Json) × List Char)
  | 0, _ => none
  | fuel + 1, cs =>
    match cs with
    | '"' :: rest =>
      match parseStringBody rest with
      | none => none
      | some (key, r) =>
        match skipWs r with
        | ':' :: r2 =>
          match parseValue fuel (skipWs r2) with
          | none => none
          | some (v, r3) => some ((String.mk key, v), r3)
        | _ => none
    | _ => none

/-- Parse the remaining comma-separated members of an object. -/
def parseMembersTail : Nat → (String × Json) → List (String × Json) → List Char →
    Option (Json × List Char)
  | 0, _, _, _ => none
  | fuel + 1, kv, acc, cs =>
    match cs with
    | '\x7d' :: rest => some (.obj ((kv :: acc).reverse), rest)
    | ',' :: rest =>
      match parseMember fuel (skipWs rest) with
      | none => none
      | some (kv2, r) => parseMembersTail fuel kv2 (kv :: acc) (skipWs r)
    | _ => none

end

/-- Parse a whole string as one JSON value (trailing whitespace allowed). -/
def parseJson (s : String) : Option Json :=
  match parseValue (s.length + 1) s.toList with
  | some (j, rest) => if (skipWs rest).isEmpty then some j else none
  | none => none

/-- Model of serde_json::from_str::WorkerResponse applied to one line of
the worker's stdout: parse the text, then run the data binding. -/
def workerResponseFromStr (s : String) : Option WorkerResponse :=
  (parseJson s).bind decodeWorkerResponse

/-! ## Error taxonomy and HTTP envelopes (error.rs, models.rs) -/

/-- Embeds enum TunnelError of error.rs. -/
inductive TunnelError where
  | Unauthorized
  | Forbidden
  | NotFound
  | MethodNotAllowed
  | InvalidJson (msg : String)
  | InternalError (msg : String)
deriving Repr, DecidableEq

/-- Embeds struct ErrorDetails of models.rs. -/
structure ErrorDetails where
  code : Nat
  message : String
  codeName : String
deriving Repr, DecidableEq

/-- Embeds struct ErrorResponse of models.rs. -/
structure ErrorResponse where
  ok : Bool
  error : ErrorDetails
deriving Repr, DecidableEq

/-- Embeds fn ErrorResponse::new of models.rs. -/
def ErrorResponse.new (code : Nat) (codeName : String) (message : String) : ErrorResponse :=
  { ok := false, error := { code := code, codeName := codeName, message := message } }

/-- Embeds fn ErrorResponse::unauthorized of models.rs. -/
def ErrorResponse.unauthorized : ErrorResponse :=
  ErrorResponse.new 401 "UNAUTHORIZED" "Invalid or missing token"

/-- Embeds fn ErrorResponse::forbidden of models.rs. -/
def ErrorResponse.forbidden : ErrorResponse :=
  ErrorResponse.new 403 "FORBIDDEN" "Task or event not in allow-list"

/-- Embeds fn ErrorResponse::not_found of models.rs. -/
def ErrorResponse.not_found : ErrorResponse :=
  ErrorResponse.new 404 "NOT_FOUND" "Task or event not found"

/-- Embeds fn ErrorResponse::method_not_allowed of models.rs. -/
def ErrorResponse.method_not_allowed : ErrorResponse :=
  ErrorResponse.new 405 "METHOD_NOT_ALLOWED" "Method not allowed"

/-- Embeds fn ErrorResponse::invalid_json of models.rs. -/
def ErrorResponse.invalid_json (msg : String) : ErrorResponse :=
  ErrorResponse.new 400 "INVALID_JSON" msg

/-- Embeds fn ErrorResponse::internal_error of models.rs. -/
def ErrorResponse.internal_error (msg : String) : ErrorResponse :=
  ErrorResponse.new 500 "INTERNAL_ERROR" msg

/-- Embeds impl IntoResponse for TunnelError of error.rs: the HTTP status
code and the JSON error envelope sent to the client. -/
def TunnelError.into_response : TunnelError → Nat × ErrorResponse
  | .Unauthorized => (401, ErrorResponse.unauthorized)
  | .Forbidden => (403, ErrorResponse.forbidden)
  | .NotFound => (404, ErrorResponse.not_found)
  | .MethodNotAllowed => (405, ErrorResponse.method_not_allowed)
  | .InvalidJson msg => (400, ErrorResponse.invalid_json msg)
  | .InternalError msg => (500, ErrorResponse.internal_error msg)

/-- Embeds struct SuccessResponse of models.rs. -/
structure SuccessResponse (T : Type) where
  ok : Bool
  result : Option T
deriving Repr, DecidableEq

/-- Embeds fn SuccessResponse::new of models.rs. -/
def SuccessResponse.new {T : Type} (result : T) : SuccessResponse T :=
  { ok := true, result := some result }

/-- Embeds fn SuccessResponse::empty of models.rs. -/
def SuccessResponse.empty {T : Type} : SuccessResponse T :=
  { ok := true, result := none }

/-- Embeds struct AllowList of models.rs (the discovery payload). -/
structure AllowList where
  enabled : Bool
  tasks : List String
  events : List String
deriving Repr, DecidableEq

/-- Embeds struct DiscoveryResult of models.rs. -/
structure DiscoveryResult where
  allow_list : AllowList
deriving Repr, DecidableEq

/-- Embeds struct TunnelConfig of models.rs. -/
structure TunnelConfig where
  base_path : String
  port : Nat
  auth_token : String
  auth_header : String
  allowed_tasks : List String
  allowed_events : List String
  cors_origin : Option String
  delegate_auth : Bool
deriving Repr, DecidableEq

/-- Embeds impl Default for TunnelConfig of models.rs. -/
def TunnelConfig.default : TunnelConfig :=
  { base_path := "/__runner", port := 7070, auth_token := "secret",
    auth_header := "x-runner-token", allowed_tasks := [], allowed_events := [],
    cors_origin := some "*", delegate_auth := true }

/-! ## Task/Event registry (task_registry.rs)

The two HashMap fields behind RwLock are modelled as functional maps from
id to handler; a handler is the behavior of the boxed trait object:
input to result, with failure in Except. -/

/-- Embeds struct TaskRegistry of task_registry.rs. -/
structure TaskRegistry where
  tasks : String → Option (Json → Except TunnelError Json)
  events : String → Option (Json → Except TunnelError Unit)

/-- Embeds fn TaskRegistry::new of task_registry.rs. -/
def TaskRegistry.new : TaskRegistry :=
  { tasks := fun _ => none, events := fun _ => none }

/-- Embeds fn TaskRegistry::register_task of task_registry.rs: HashMap
insert, replacing any previous handler under the same id. -/
def TaskRegistry.register_task (r : TaskRegistry) (id : String)
    (handler : Json → Except TunnelError Json) : TaskRegistry :=
  { r with tasks := fun k => if k = id then some handler else r.tasks k }

/-- Embeds fn TaskRegistry::register_event of task_registry.rs. -/
def TaskRegistry.register_event (r : TaskRegistry) (id : String)
    (handler : Json → Except TunnelError Unit) : TaskRegistry :=
  { r with events := fun k => if k = id then some handler else r.events k }

/-- Embeds fn TaskRegistry::execute_task of task_registry.rs: look the id
up, fail with NotFound when absent, otherwise run the handler. -/
def TaskRegistry.execute_task (r : TaskRegistry) (id : String) (input : Json) :
    Except TunnelError Json :=
  match r.tasks id with
  | none => .error .NotFound
  | some handler => handler input

/-- Embeds fn TaskRegistry::emit_event of task_registry.rs. -/
def TaskRegistry.emit_event (r : TaskRegistry) (id : String) (payload : Json) :
    Except TunnelError Unit :=
  match r.events id with
  | none => .error .NotFound
  | some handler => handler payload

/-! ## HTTP handlers (handlers.rs) -/

/-- Embeds the allow-list condition of fn handle_task of handlers.rs:
Forbidden exactly when the configured task list is non-empty and does not
contain the id. -/
def task_forbidden (config : TunnelConfig) (task_id : String) : Bool :=
  !config.allowed_tasks.isEmpty && !config.allowed_tasks.contains task_id

/-- Embeds the allow-list condition of fn handle_event of handlers.rs. -/
def event_forbidden (config : TunnelConfig) (event_id : String) : Bool :=
  !config.allowed_events.isEmpty && !config.allowed_events.contains event_id

/-- Embeds fn handle_task of handlers.rs (after body extraction): check
the allow-list, then execute through the registry and wrap the result. -/
def handle_task (config : TunnelConfig) (registry : TaskRegistry)
    (task_id : String) (input : Json) : Except TunnelError (SuccessResponse Json) :=
  if task_forbidden config task_id then .error .Forbidden
  else (registry.execute_task task_id input).map SuccessResponse.new

/-- Embeds fn handle_event of handlers.rs (after body extraction). -/
def handle_event (config : TunnelConfig) (registry : TaskRegistry)
    (event_id : String) (payload : Json) : Except TunnelError (SuccessResponse Unit) :=
  if event_forbidden config event_id then .error .Forbidden
  else (registry.emit_event event_id payload).map (fun _ => SuccessResponse.empty)

/-- Embeds fn handle_discovery of handlers.rs: always report the
configured id lists with the enabled flag set to the literal true. -/
def handle_discovery (config : TunnelConfig) :
    Except TunnelError (SuccessResponse DiscoveryResult) :=
  .ok (SuccessResponse.new
    { allow_list :=
        { enabled := true, tasks := config.allowed_tasks, events := config.allowed_events } })

/-! ## Authentication (auth.rs)

axum HeaderMap is modelled as an association list from (lowercase
normalized) header name to raw byte value; HeaderValue::to_str succeeds
exactly on visible ASCII bytes. -/

/-- Embeds struct AuthConfig of auth.rs. -/
structure AuthConfig where
  token : String
  header : String
deriving Repr, DecidableEq

/-- Model of axum HeaderMap: name to raw bytes, first match wins. -/
def HeaderMap : Type := List (String × List Nat)

/-- Header lookup (HeaderMap::get). -/
def headerMapGet (headers : HeaderMap) (name : String) : Option (List Nat) :=
  match headers.find? (fun p => p.1 = name) with
  | some p => some p.2
  | none => none

/-- Model of HeaderValue::to_str: succeeds exactly when every byte is
visible ASCII or space. -/
def headerValueToStr (v : List Nat) : Option String :=
  if v.all (fun b => 32 ≤ b ∧ b < 127) then some (String.mk (v.map Char.ofNat)) else none

/-- Embeds fn validate_auth of auth.rs: read the configured header,
convert it to a string, fail with Unauthorized when the header is absent
or unreadable or its value differs from the configured token. -/
def validate_auth (headers : HeaderMap) (config : AuthConfig) : Except TunnelError Unit :=
  match (headerMapGet headers config.header).bind headerValueToStr with
  | none => .error .Unauthorized
  | some token => if token ≠ config.token then .error .Unauthorized else .ok ()

/-- Embeds fn auth_middleware of auth.rs: OPTIONS requests bypass
authentication, every other request passes through validate_auth before
the inner handler response `next` is produced. -/
def auth_middleware {R : Type} (config : AuthConfig) (method : String)
    (headers : HeaderMap) (next : R) : Except TunnelError R :=
  if method = "OPTIONS" then .ok next
  else
    match validate_auth headers config with
    | .error e => .error e
    | .ok _ => .ok next

/-! ## Worker channel (node_worker.rs)

The pending-response table (a HashMap u64 to oneshot sender behind a
mutex) is modelled as a functional map from correlation id to an abstract
waiter token; the reader thread is the fold of one step per stdout line.
A delivered pair (w, resp) records the oneshot send of resp to waiter w. -/

/-- State shared between the writer and reader threads: the pending table
together with the record of completed oneshot sends. -/
structure ReaderState (W : Type) where
  pending : Nat → Option W
  delivered : List (W × WorkerResponse)

/-- Embeds the loop body of fn NodeWorker::spawn_reader_task of
node_worker.rs: decode the line; on failure skip it, otherwise remove the
pending entry under the response id and, when one was present, send the
response to that waiter. -/
def readerStep {W : Type} (st : ReaderState W) (line : String) : ReaderState W :=
  match workerResponseFromStr line with
  | none => st
  | some response =>
    match st.pending response.id with
    | none => st
    | some w =>
      { pending := fun k => if k = response.id then none else st.pending k,
        delivered := st.delivered ++ [(w, response)] }

/-- The reader thread run: process every stdout line in order; the run
ends when stdout reaches EOF, which is when the worker process exited. -/
def runReader {W : Type} (st : ReaderState W) (lines : List String) : ReaderState W :=
  lines.foldl readerStep st

/-- Number of recorded deliveries for correlation id n. -/
def deliveredCountFor {W : Type} (st : ReaderState W) (n : Nat) : Nat :=
  (st.delivered.filter (fun pr => pr.2.id == n)).length

/-- Embeds the response handling of fn NodeWorker::execute_task of
node_worker.rs: on ok the result field (or null when absent), otherwise
an InternalError carrying error.message (or a fixed text when the error
object is absent). -/
def taskResponseToResult (response : WorkerResponse) : Except TunnelError Json :=
  if response.ok then .ok (response.result.getD .null)
  else .error (.InternalError ((response.error.map WorkerError.message).getD "Unknown error"))

/-- Embeds the response handling of fn NodeWorker::emit_event of
node_worker.rs. -/
def eventResponseToResult (response : WorkerResponse) : Except TunnelError Unit :=
  if response.ok then .ok ()
  else .error (.InternalError ((response.error.map WorkerError.message).getD "Unknown error"))

/-! ## Sample values used by concrete witnesses and counterexamples -/

/-- Sample worker response carrying a structured worker error object. -/
def respStructuredError : WorkerResponse :=
  { id := 7, ok := false, result := none, error := some ⟨"boom", 404, "NOT_FOUND"⟩ }

/-- Sample worker response whose ok result is the JSON null value. -/
def respNullResult : WorkerResponse :=
  { id := 1, ok := true, result := some .null, error := none }

/-- Sample reader state: one waiter (token 0) outstanding under
correlation id 1, nothing delivered yet. -/
def sampleReaderState : ReaderState Nat :=
  { pending := fun k => if k = 1 then some 0 else none, delivered := [] }

/-- Sample stdout line: a well-formed success response for id 1. -/
def sampleLine1 : String := "\x7b\"id\":1,\"ok\":true\x7d"

/-- Sample stdout line: a well-formed success response for id 2. -/
def sampleLine2 : String := "\x7b\"id\":2,\"ok\":true\x7d"

/-- Sample reader state with two outstanding waiters: token 10 under
correlation id 1 and token 20 under correlation id 2. -/
def sampleReaderState2 : ReaderState Nat :=
  { pending := fun k => if k = 1 then some 10 else if k = 2 then some 20 else none,
    delivered := [] }

/-- Sample configuration with a non-empty allow-list. -/
def sampleConfig : TunnelConfig :=
  { TunnelConfig.default with allowed_tasks := ["a", "b"], allowed_events := ["e"] }

/-- Sample registry: task `a` echoes its input, event `e` succeeds. -/
def sampleRegistry : TaskRegistry :=
  (TaskRegistry.new.register_task "a" (fun input => .ok input)).register_event "e"
    (fun _ => .ok ())

/-- Sample request context for concrete witnesses. -/
def sampleContext : RequestContext :=
  { method := "POST", path := "/__runner/task/app.tasks.add",
    headers := [("x-runner-token", "secret")], query := [("verbose", "1")] }

/-- Sample worker request with an object payload. -/
def sampleWorkerRequest : WorkerRequest :=
  .task 1 "app.tasks.add" (.obj [("a", .num 5)]) sampleContext

/-- Sample worker response with an array payload holding a null and an
empty object. -/
def sampleWorkerResponse : WorkerResponse :=
  { id := 2, ok := true, result := some (.arr [.null, .obj []]), error := none }

/-! ## Helper lemmas for the codec roundtrip -/

theorem decodeStringPairs_map (l : List (String × String)) :
    decodeStringPairs (l.map fun p => (p.1, .str p.2)) = some l := by
  induction l with
  | nil => rfl
  | cons p rest ih => cases p; simp [decodeStringPairs, ih]

theorem decodeStringMap_roundtrip (l : List (String × String)) :
    decodeStringMap (encodeStringMap l) = some l := by
  simp [encodeStringMap, decodeStringMap, decodeStringPairs_map]

theorem decodeRequestContext_roundtrip (c : RequestContext) :
    decodeRequestContext (encodeRequestContext c) = some c := by
  simp [decodeRequestContext,
    show (encodeRequestContext c).getField "method" = some (.str c.method) from rfl,
    show (encodeRequestContext c).getField "path" = some (.str c.path) from rfl,
    show (encodeRequestContext c).getField "headers" = some (encodeStringMap c.headers) from rfl,
    show (encodeRequestContext c).getField "query" = some (encodeStringMap c.query) from rfl,
    decodeStr, decodeStringMap_roundtrip]

theorem decodeU64_num (n : Nat) (h : n < 2 ^ 64) : decodeU64 (.num (n : Int)) = some n := by
  simp only [decodeU64]
  rw [if_pos ⟨Int.natCast_nonneg n, by norm_num; exact_mod_cast h⟩]
  exact congrArg some (Int.toNat_natCast n)

theorem decodeU16_num (n : Nat) (h : n < 2 ^ 16) : decodeU16 (.num (n : Int)) = some n := by
  simp only [decodeU16]
  rw [if_pos ⟨Int.natCast_nonneg n, by norm_num; exact_mod_cast h⟩]
  exact congrArg some (Int.toNat_natCast n)

theorem decodeWorkerError_roundtrip (e : WorkerError) (h : e.code < 2 ^ 16) :
    decodeWorkerError (encodeWorkerError e) = some e := by
  rw [decodeWorkerError,
    show (encodeWorkerError e).getField "message" = some (.str e.message) from rfl,
    show (encodeWorkerError e).getField "code" = some (.num (e.code : Int)) from rfl,
    show (encodeWorkerError e).getField "codeName" = some (.str e.codeName) from rfl,
    Option.some_bind, Option.some_bind, Option.some_bind,
    show decodeStr (.str e.message) = some e.message from rfl,
    show decodeStr (.str e.codeName) = some e.codeName from rfl,
    decodeU16_num e.code h]
  rfl

theorem decodeOptionValue_some_of_ne_null (v : Json) (h : v ≠ .null) :
    decodeOptionValue (some v) = some (some v) := by
  cases v with
  | null => exact absurd rfl h
  | bool b => rfl
  | num n => rfl
  | str s => rfl
  | arr elems => rfl
  | obj fields => rfl

theorem decodeOptionError_encode (e : WorkerError) (h : e.code < 2 ^ 16) :
    decodeOptionError (some (encodeWorkerError e)) = some (some e) := by
  rw [show decodeOptionError (some (encodeWorkerError e))
      = (decodeWorkerError (encodeWorkerError e)).map some from rfl,
    decodeWorkerError_roundtrip e h]
  rfl

theorem decodeWorkerResponse_roundtrip (resp : WorkerResponse) (hid : resp.id < 2 ^ 64)
    (herr : ∀ e, resp.error = some e → e.code < 2 ^ 16)
    (hres : resp.result ≠ some .null) :
    decodeWorkerResponse (encodeWorkerResponse resp) = some resp := by
  obtain ⟨id, ok, res, err⟩ := resp
  have hid2 : id < 2 ^ 64 := hid
  cases res with
  | none =>
    cases err with
    | none =>
      rw [decodeWorkerResponse,
        show (encodeWorkerResponse ⟨id, ok, none, none⟩).getField "id"
            = some (.num (id : Int)) from rfl,
        show (encodeWorkerResponse ⟨id, ok, none, none⟩).getField "ok"
            = some (.bool ok) from rfl,
        show (encodeWorkerResponse ⟨id, ok, none, none⟩).getField "result" = none from rfl,
        show (encodeWorkerResponse ⟨id, ok, none, none⟩).getField "error" = none from rfl,
        Option.some_bind, Option.some_bind,
        show decodeBool (.bool ok) = some ok from rfl,
        decodeU64_num id hid2]
      rfl
    | some e =>
      have hc : e.code < 2 ^ 16 := herr e rfl
      rw [decodeWorkerResponse,
        show (encodeWorkerResponse ⟨id, ok, none, some e⟩).getField "id"
            = some (.num (id : Int)) from rfl,
        show (encodeWorkerResponse ⟨id, ok, none, some e⟩).getField "ok"
            = some (.bool ok) from rfl,
        show (encodeWorkerResponse ⟨id, ok, none, some e⟩).getField "result" = none from rfl,
        show (encodeWorkerResponse ⟨id, ok, none, some e⟩).getField "error"
            = some (encodeWorkerError e) from rfl,
        Option.some_bind, Option.some_bind,
        show decodeBool (.bool ok) = some ok from rfl,
        decodeU64_num id hid2, decodeOptionError_encode e hc]
      rfl
  | some v =>
    have hv : v ≠ .null := fun hvn => hres (by rw [hvn])
    cases err with
    | none =>
      rw [decodeWorkerResponse,
        show (encodeWorkerResponse ⟨id, ok, some v, none⟩).getField "id"
            = some (.num (id : Int)) from rfl,
        show (encodeWorkerResponse ⟨id, ok, some v, none⟩).getField "ok"
            = some (.bool ok) from rfl,
        show (encodeWorkerResponse ⟨id, ok, some v, none⟩).getField "result" = some v from rfl,
        show (encodeWorkerResponse ⟨id, ok, some v, none⟩).getField "error" = none from rfl,
        Option.some_bind, Option.some_bind,
        show decodeBool (.bool ok) = some ok from rfl,
        decodeU64_num id hid2, decodeOptionValue_some_of_ne_null v hv]
      rfl
    | some e =>
      have hc : e.code < 2 ^ 16 := herr e rfl
      rw [decodeWorkerResponse,
        show (encodeWorkerResponse ⟨id, ok, some v, some e⟩).getField "id"
            = some (.num (id : Int)) from rfl,
        show (encodeWorkerResponse ⟨id, ok, some v, some e⟩).getField "ok"
            = some (.bool ok) from rfl,
        show (encodeWorkerResponse ⟨id, ok, some v, some e⟩).getField "result" = some v from rfl,
        show (encodeWorkerResponse ⟨id, ok, some v, some e⟩).getField "error"
            = some (encodeWorkerError e) from rfl,
        Option.some_bind, Option.some_bind,
        show decodeBool (.bool ok) = some ok from rfl,
        decodeU64_num id hid2, decodeOptionValue_some_of_ne_null v hv,
        decodeOptionError_encode e hc]
      rfl

theorem decodeWorkerRequest_roundtrip (req : WorkerRequest) (hid : req.id < 2 ^ 64) :
    decodeWorkerRequest (encodeWorkerRequest req) = some req := by
  cases req with
  | auth id ctx =>
    have hid2 : id < 2 ^ 64 := hid
    rw [decodeWorkerRequest,
      show ((encodeWorkerRequest (.auth id ctx)).getField "type").bind decodeStr
          = some "auth" from rfl,
      Option.some_bind,
      show (encodeWorkerRequest (.auth id ctx)).getField "id" = some (.num (id : Int)) from rfl,
      Option.some_bind, decodeU64_num id hid2, Option.some_bind, if_pos rfl,
      show (encodeWorkerRequest (.auth id ctx)).getField "context"
          = some (encodeRequestContext ctx) from rfl,
      Option.some_bind, decodeRequestContext_roundtrip ctx]
    rfl
  | task id taskId input ctx =>
    have hid2 : id < 2 ^ 64 := hid
    rw [decodeWorkerRequest,
      show ((encodeWorkerRequest (.task id taskId input ctx)).getField "type").bind decodeStr
          = some "task" from rfl,
      Option.some_bind,
      show (encodeWorkerRequest (.task id taskId input ctx)).getField "id"
          = some (.num (id : Int)) from rfl,
      Option.some_bind, decodeU64_num id hid2, Option.some_bind,
      if_neg (show ¬("task" = "auth") from by decide), if_pos rfl,
      show (encodeWorkerRequest (.task id taskId input ctx)).getField "taskId"
          = some (.str taskId) from rfl,
      Option.some_bind,
      show decodeStr (.str taskId) = some taskId from rfl,
      Option.some_bind,
      show (encodeWorkerRequest (.task id taskId input ctx)).getField "input"
          = some input from rfl,
      Option.some_bind,
      show (encodeWorkerRequest (.task id taskId input ctx)).getField "context"
          = some (encodeRequestContext ctx) from rfl,
      Option.some_bind, decodeRequestContext_roundtrip ctx]
    rfl
  | event id eventId payload ctx =>
    have hid2 : id < 2 ^ 64 := hid
    rw [decodeWorkerRequest,
      show ((encodeWorkerRequest (.event id eventId payload ctx)).getField "type").bind decodeStr
          = some "event" from rfl,
      Option.some_bind,
      show (encodeWorkerRequest (.event id eventId payload ctx)).getField "id"
          = some (.num (id : Int)) from rfl,
      Option.some_bind, decodeU64_num id hid2, Option.some_bind,
      if_neg (show ¬("event" = "auth") from by decide),
      if_neg (show ¬("event" = "task") from by decide), if_pos rfl,
      show (encodeWorkerRequest (.event id eventId payload ctx)).getField "eventId"
          = some (.str eventId) from rfl,
      Option.some_bind,
      show decodeStr (.str eventId) = some eventId from rfl,
      Option.some_bind,
      show (encodeWorkerRequest (.event id eventId payload ctx)).getField "payload"
          = some payload from rfl,
      Option.some_bind,
      show (encodeWorkerRequest (.event id eventId payload ctx)).getField "context"
          = some (encodeRequestContext ctx) from rfl,
      Option.some_bind, decodeRequestContext_roundtrip ctx]
    rfl
  | shutdown id =>
    have hid2 : id < 2 ^ 64 := hid
    rw [decodeWorkerRequest,
      show ((encodeWorkerRequest (.shutdown id)).getField "type").bind decodeStr
          = some "shutdown" from rfl,
      Option.some_bind,
      show (encodeWorkerRequest (.shutdown id)).getField "id"
          = some (.num (id : Int)) from rfl,
      Option.some_bind, decodeU64_num id hid2, Option.some_bind,
      if_neg (show ¬("shutdown" = "auth") from by decide),
      if_neg (show ¬("shutdown" = "task") from by decide),
      if_neg (show ¬("shutdown" = "event") from by decide), if_pos rfl]

/-! ## Claim C6: envelope roundtrip -/

/-- Claim C6 counterexample: the response envelope whose ok result is the
JSON null value does not roundtrip.  Encoding emits the member
`result: null` (skip_serializing_if only skips a missing option), and the
serde Option data binding reads JSON null back as an absent option, so the
decoded envelope has no result and differs from the original. -/
theorem c6_counterexample :
    encodeWorkerResponse respNullResult
      = .obj [("id", .num 1), ("ok", .bool true), ("result", .null)] ∧
    decodeWorkerResponse (encodeWorkerResponse respNullResult)
      = some { id := 1, ok := true, result := none, error := none } ∧
    decodeWorkerResponse (encodeWorkerResponse respNullResult) ≠ some respNullResult := by
  refine ⟨rfl, rfl, ?_⟩
  intro h
  rw [show decodeWorkerResponse (encodeWorkerResponse respNullResult)
      = some { id := 1, ok := true, result := none, error := none } from rfl] at h
  have h2 := congrArg WorkerResponse.result (Option.some.inj h)
  simp [respNullResult] at h2

/-- Claim C6 (amended): encoding a Worker Request envelope and then
decoding yields the original envelope, for every request whose id is in
u64 range; the same holds for Worker Response envelopes whose error code
is in u16 range, except that a response whose result field holds the JSON
null value decodes back with the result absent — for every other payload
shape (objects, arrays, the empty object, and null appearing inside the
payload) the roundtrip is the identity. -/
theorem c6_envelope_roundtrip (req : WorkerRequest) (resp : WorkerResponse)
    (hreq : req.id < 2 ^ 64) (hresp : resp.id < 2 ^ 64)
    (herr : ∀ e, resp.error = some e → e.code < 2 ^ 16)
    (hres : resp.result ≠ some .null) :
    decodeWorkerRequest (encodeWorkerRequest req) = some req ∧
    decodeWorkerResponse (encodeWorkerResponse resp) = some resp :=
  ⟨decodeWorkerRequest_roundtrip req hreq,
   decodeWorkerResponse_roundtrip resp hresp herr hres⟩

/-- Witness for C6: the roundtrip theorem applied at a concrete request
(object payload) and a concrete response (array payload holding a null
and an empty object). -/
theorem c6_witness :
    sampleWorkerRequest.id < 2 ^ 64 ∧ sampleWorkerResponse.id < 2 ^ 64 ∧
    decodeWorkerRequest (encodeWorkerRequest sampleWorkerRequest) = some sampleWorkerRequest ∧
    decodeWorkerResponse (encodeWorkerResponse sampleWorkerResponse)
      = some sampleWorkerResponse :=
  have hreq : sampleWorkerRequest.id < 2 ^ 64 := by show (1 : Nat) < 2 ^ 64; norm_num
  have hresp : sampleWorkerResponse.id < 2 ^ 64 := by show (2 : Nat) < 2 ^ 64; norm_num
  have h := c6_envelope_roundtrip sampleWorkerRequest sampleWorkerResponse hreq hresp
    (fun e he => Option.noConfusion he) (fun h => Json.noConfusion (Option.some.inj h))
  ⟨hreq, hresp, h.1, h.2⟩

/-! ## Claim C5: registry dispatch -/

/-- Claim C5: for every id with a registered handler, execute_task runs
exactly that handler on the input and returns its result, success or
failure, unchanged; for every id absent from the task map it fails with
NotFound; and the handler that runs for an id is the last one registered
under it. -/
theorem c5_execute_task (reg : TaskRegistry) (id : String) (input : Json)
    (handler : Json → Except TunnelError Json) :
    (reg.tasks id = some handler → reg.execute_task id input = handler input) ∧
    (reg.tasks id = none → reg.execute_task id input = .error .NotFound) ∧
    ((reg.register_task id handler).execute_task id input = handler input) := by
  refine ⟨fun h => ?_, fun h => ?_, ?_⟩
  · simp [TaskRegistry.execute_task, h]
  · simp [TaskRegistry.execute_task, h]
  · simp [TaskRegistry.execute_task, TaskRegistry.register_task]

/-- Witness for C5: the sample registry echoes through task `a` and fails
with NotFound on an unregistered id. -/
theorem c5_witness :
    sampleRegistry.execute_task "a" (.num 3) = .ok (.num 3) ∧
    sampleRegistry.execute_task "missing" .null = .error .NotFound :=
  ⟨(c5_execute_task sampleRegistry "a" (.num 3) (fun input => .ok input)).1 rfl,
   (c5_execute_task sampleRegistry "missing" .null (fun input => .ok input)).2.1 rfl⟩

/-! ## Claim C8: discovery -/

/-- Claim C8 counterexample: with the default configuration (both id
lists empty, so the gate forbids nothing and the allow-list is
effectively disabled), discovery still advertises enabled true: the
enabled flag does not reflect the configured allow-list state. -/
theorem c8_counterexample :
    handle_discovery TunnelConfig.default = .ok (SuccessResponse.new
      { allow_list := { enabled := true, tasks := [], events := [] } }) ∧
    task_forbidden TunnelConfig.default "any.unlisted.task" = false ∧
    event_forbidden TunnelConfig.default "any.unlisted.event" = false :=
  ⟨rfl, rfl, rfl⟩

/-- Claim C8 (amended): for every configuration the discovery endpoint
returns a success envelope whose result is the configured task id list and
event id list, with the enabled flag hardcoded to the literal true
regardless of the configuration. -/
theorem c8_discovery (config : TunnelConfig) :
    handle_discovery config = .ok (SuccessResponse.new
      { allow_list := { enabled := true, tasks := config.allowed_tasks,
                        events := config.allowed_events } }) := rfl

/-! ## Claim C10: absent result and error fields -/

/-- Claim C10: an ok false response with no error object surfaces as
InternalError with the fixed message Unknown error from both execute_task
and emit_event, and an ok true response with no result yields JSON null. -/
theorem c10_missing_fields (response : WorkerResponse) :
    (response.ok = false → response.error = none →
      taskResponseToResult response = .error (.InternalError "Unknown error") ∧
      eventResponseToResult response = .error (.InternalError "Unknown error")) ∧
    (response.ok = true → response.result = none →
      taskResponseToResult response = .ok .null) := by
  constructor
  · intro hok herr
    constructor <;> simp [taskResponseToResult, eventResponseToResult, hok, herr]
  · intro hok hres
    simp [taskResponseToResult, hok, hres]

/-- Witness for C10 at concrete responses with the fields absent. -/
theorem c10_witness :
    (taskResponseToResult { id := 1, ok := false, result := none, error := none }
        = .error (.InternalError "Unknown error") ∧
      eventResponseToResult { id := 1, ok := false, result := none, error := none }
        = .error (.InternalError "Unknown error")) ∧
    taskResponseToResult { id := 2, ok := true, result := none, error := none } = .ok .null :=
  ⟨(c10_missing_fields { id := 1, ok := false, result := none, error := none }).1 rfl rfl,
   (c10_missing_fields { id := 2, ok := true, result := none, error := none }).2 rfl rfl⟩

/-! ## Claim C3: worker failures and the HTTP error envelope -/

/-- Claim C3 counterexample: the worker supplies a structured error with
code 404 and codeName NOT_FOUND, but execute_task keeps only the message,
and the HTTP envelope built from the resulting InternalError carries
500 and INTERNAL_ERROR, not the worker codes. -/
theorem c3_counterexample :
    respStructuredError.error
      = some { message := "boom", code := 404, codeName := "NOT_FOUND" } ∧
    taskResponseToResult respStructuredError = .error (.InternalError "boom") ∧
    (TunnelError.InternalError "boom").into_response
      = (500, { ok := false,
                error := { code := 500, message := "boom", codeName := "INTERNAL_ERROR" } }) ∧
    (TunnelError.InternalError "boom").into_response.2.error.code ≠ 404 ∧
    (TunnelError.InternalError "boom").into_response.2.error.codeName ≠ "NOT_FOUND" :=
  ⟨rfl, rfl, rfl, by decide, by decide⟩

/-- Claim C3 (amended): for every ok false worker response carrying an
error object, execute_task and emit_event surface InternalError with
exactly the worker message, and the HTTP envelope of that InternalError
always carries status 500 with code 500 and codeName INTERNAL_ERROR; the
worker codes are discarded, only the message is preserved. -/
theorem c3_worker_error_to_internal (response : WorkerResponse) (e : WorkerError)
    (hok : response.ok = false) (herr : response.error = some e) :
    taskResponseToResult response = .error (.InternalError e.message) ∧
    eventResponseToResult response = .error (.InternalError e.message) ∧
    (TunnelError.InternalError e.message).into_response
      = (500, { ok := false,
                error := { code := 500, message := e.message,
                           codeName := "INTERNAL_ERROR" } }) := by
  refine ⟨?_, ?_, rfl⟩ <;>
    simp [taskResponseToResult, eventResponseToResult, hok, herr]

/-- Witness for C3 at the sample structured-error response. -/
theorem c3_witness :
    respStructuredError.ok = false ∧
    taskResponseToResult respStructuredError = .error (.InternalError "boom") ∧
    eventResponseToResult respStructuredError = .error (.InternalError "boom") :=
  have h := c3_worker_error_to_internal respStructuredError
    { message := "boom", code := 404, codeName := "NOT_FOUND" } rfl rfl
  ⟨rfl, h.1, h.2.1⟩

/-! ## Claim C2: allow-list gate -/

/-- Claim C2 counterexample: there is no independent enabled flag in the
configuration; the only enabled flag in the code is the one discovery
advertises, which is the literal true.  Under the default configuration
the advertised allow-list is enabled with an empty task list, yet the
unlisted id app.tasks.unlisted passes the gate and reaches the registry
(NotFound, not Forbidden) — contradicting that with the allow-list
enabled exactly the listed ids are dispatchable. -/
theorem c2_counterexample :
    handle_discovery TunnelConfig.default = .ok (SuccessResponse.new
      { allow_list := { enabled := true, tasks := [], events := [] } }) ∧
    task_forbidden TunnelConfig.default "app.tasks.unlisted" = false ∧
    handle_task TunnelConfig.default TaskRegistry.new "app.tasks.unlisted" .null
      = .error .NotFound ∧
    handle_task TunnelConfig.default TaskRegistry.new "app.tasks.unlisted" .null
      ≠ .error .Forbidden := by
  refine ⟨rfl, rfl, rfl, ?_⟩
  intro h
  rw [show handle_task TunnelConfig.default TaskRegistry.new "app.tasks.unlisted" .null
      = .error .NotFound from rfl] at h
  exact absurd (Except.error.inj h) (by decide)

/-- Claim C2 (amended): the gate derives enabledness from emptiness of
the configured list: an id is Forbidden exactly when the list for its
namespace is non-empty and does not contain the id, and the Forbidden
answer is produced for every registry alike, before the registry is
consulted; when the gate passes, the handler result is exactly the
registry outcome.  Equivalently, an id passes the gate iff the configured
list is empty or contains it. -/
theorem c2_allow_list (config : TunnelConfig) (registry : TaskRegistry)
    (task_id event_id : String) (input payload : Json) :
    (task_forbidden config task_id = true →
      handle_task config registry task_id input = .error .Forbidden) ∧
    (task_forbidden config task_id = false →
      handle_task config registry task_id input
        = (registry.execute_task task_id input).map SuccessResponse.new) ∧
    (task_forbidden config task_id = false ↔
      config.allowed_tasks = [] ∨ task_id ∈ config.allowed_tasks) ∧
    (event_forbidden config event_id = true →
      handle_event config registry event_id payload = .error .Forbidden) ∧
    (event_forbidden config event_id = false →
      handle_event config registry event_id payload
        = (registry.emit_event event_id payload).map (fun _ => SuccessResponse.empty)) ∧
    (event_forbidden config event_id = false ↔
      config.allowed_events = [] ∨ event_id ∈ config.allowed_events) := by
  refine ⟨fun h => ?_, fun h => ?_, ?_, fun h => ?_, fun h => ?_, ?_⟩
  · simp [handle_task, h]
  · simp [handle_task, h]
  · simp only [task_forbidden]
    generalize config.allowed_tasks = l
    cases l with
    | nil => simp
    | cons a t => simp; tauto
  · simp [handle_event, h]
  · simp [handle_event, h]
  · simp only [event_forbidden]
    generalize config.allowed_events = l
    cases l with
    | nil => simp
    | cons a t => simp; tauto

/-- Witness for C2 at the sample configuration and registry. -/
theorem c2_witness :
    handle_task sampleConfig sampleRegistry "z" .null = .error .Forbidden ∧
    handle_task sampleConfig sampleRegistry "a" (.num 7)
      = (sampleRegistry.execute_task "a" (.num 7)).map SuccessResponse.new ∧
    handle_event sampleConfig sampleRegistry "x" .null = .error .Forbidden ∧
    (task_forbidden sampleConfig "a" = false ↔
      sampleConfig.allowed_tasks = [] ∨ "a" ∈ sampleConfig.allowed_tasks) :=
  ⟨(c2_allow_list sampleConfig sampleRegistry "z" "x" .null .null).1 rfl,
   (c2_allow_list sampleConfig sampleRegistry "a" "x" (.num 7) .null).2.1 rfl,
   (c2_allow_list sampleConfig sampleRegistry "z" "x" .null .null).2.2.2.1 rfl,
   (c2_allow_list sampleConfig sampleRegistry "a" "x" (.num 7) .null).2.2.1⟩

/-! ## Claim C7: authentication -/

/-- Claim C7: for every request that is not an OPTIONS request, the
middleware fails with Unauthorized exactly when no value of the
configured header decodes to exactly the configured secret token — the
header is absent, unreadable, or its value differs; every OPTIONS request
bypasses authentication and reaches the inner handler unconditionally. -/
theorem c7_auth (R : Type) (config : AuthConfig) (method : String) (headers : HeaderMap)
    (next : R) :
    (method = "OPTIONS" → auth_middleware config method headers next = .ok next) ∧
    (method ≠ "OPTIONS" →
      (auth_middleware config method headers next = .error .Unauthorized ↔
        ∀ t, (headerMapGet headers config.header).bind headerValueToStr = some t →
          t ≠ config.token)) := by
  constructor
  · intro h
    simp [auth_middleware, h]
  · intro h
    simp only [auth_middleware, if_neg h]
    unfold validate_auth
    cases hv : (headerMapGet headers config.header).bind headerValueToStr with
    | none =>
      simp
    | some t =>
      by_cases ht : t = config.token
      · subst ht
        simp
      · simp [ht]

/-- Witness for C7: OPTIONS bypasses auth even with no headers, and a
wrong token value is Unauthorized on a POST. -/
theorem c7_witness :
    auth_middleware { token := "secret", header := "x-runner-token" } "OPTIONS"
      [] (0 : Nat) = .ok 0 ∧
    (auth_middleware { token := "secret", header := "x-runner-token" } "POST"
        [("x-runner-token", [98, 97, 100])] (0 : Nat) = .error .Unauthorized ↔
      ∀ t, (headerMapGet [("x-runner-token", [98, 97, 100])]
          ({ token := "secret", header := "x-runner-token" } : AuthConfig).header).bind
          headerValueToStr = some t → t ≠ "secret") ∧
    auth_middleware { token := "secret", header := "x-runner-token" } "POST"
      [("x-runner-token", [98, 97, 100])] (0 : Nat) = .error .Unauthorized :=
  ⟨(c7_auth Nat { token := "secret", header := "x-runner-token" } "OPTIONS" [] 0).1 rfl,
   (c7_auth Nat { token := "secret", header := "x-runner-token" } "POST"
      [("x-runner-token", [98, 97, 100])] 0).2 (by decide),
   rfl⟩

/-! ## Claim C9: malformed lines -/

/-- Claim C9: a stdout line that does not decode as a Worker Response
envelope is dropped: the reader step leaves the state (pending table and
deliveries) unchanged, completes and removes no waiter, and the run
continues with the remaining lines exactly as if the line were absent. -/
theorem c9_malformed_line (W : Type) (st : ReaderState W) (line : String)
    (rest : List String) (h : workerResponseFromStr line = none) :
    readerStep st line = st ∧
    runReader st (line :: rest) = runReader st rest := by
  have hstep : readerStep st line = st := by
    unfold readerStep
    rw [h]
  refine ⟨hstep, ?_⟩
  simp only [runReader, List.foldl_cons, hstep]

/-- Witness for C9 at a concrete garbage line in front of a good line. -/
theorem c9_witness :
    workerResponseFromStr "this line is not a worker response" = none ∧
    readerStep sampleReaderState "this line is not a worker response" = sampleReaderState ∧
    runReader sampleReaderState ["this line is not a worker response", sampleLine1]
      = runReader sampleReaderState [sampleLine1] :=
  have h : workerResponseFromStr "this line is not a worker response" = none := rfl
  have h2 := c9_malformed_line Nat sampleReaderState "this line is not a worker response"
    [sampleLine1] h
  ⟨h, h2.1, h2.2⟩

/-! ## Claim C4 -/

/-- One reader step preserves the per-id correlation invariant: all
deliveries for id n went to the waiter registered under n, and either the
entry for n is still pending with no delivery yet, or it was removed and
at most one delivery happened. -/
theorem readerStep_correlation_invariant (W : Type) (n : Nat) (w : W) (st : ReaderState W)
    (line : String)
    (hdeliv : ∀ pr ∈ st.delivered, pr.2.id = n → pr.1 = w)
    (hstate : (st.pending n = some w ∧ deliveredCountFor st n = 0) ∨
              (st.pending n = none ∧ deliveredCountFor st n ≤ 1)) :
    (∀ pr ∈ (readerStep st line).delivered, pr.2.id = n → pr.1 = w) ∧
    (((readerStep st line).pending n = some w ∧
        deliveredCountFor (readerStep st line) n = 0) ∨
     ((readerStep st line).pending n = none ∧
        deliveredCountFor (readerStep st line) n ≤ 1)) := by
  unfold readerStep
  cases hdec : workerResponseFromStr line with
  | none => exact ⟨hdeliv, hstate⟩
  | some resp =>
    dsimp only
    cases hp : st.pending resp.id with
    | none => exact ⟨hdeliv, hstate⟩
    | some w2 =>
      dsimp only
      by_cases hid : resp.id = n
      · subst hid
        rcases hstate with ⟨hpn, hcnt⟩ | ⟨hpn, hcnt⟩
        · have hw : w2 = w := Option.some.inj ((hp.symm).trans hpn)
          subst hw
          refine ⟨?_, Or.inr ⟨?_, ?_⟩⟩
          · intro pr hmem hprid
            rcases List.mem_append.mp hmem with hold | hnew
            · exact hdeliv pr hold hprid
            · rw [List.mem_singleton] at hnew
              rw [hnew]
          · simp
          · simp only [deliveredCountFor, List.filter_append, List.length_append]
            have : deliveredCountFor st resp.id = 0 := hcnt
            simp only [deliveredCountFor] at this
            rw [this]
            simp
        · rw [hp] at hpn
          exact absurd hpn (by simp)
      · refine ⟨?_, ?_⟩
        · intro pr hmem hprid
          rcases List.mem_append.mp hmem with hold | hnew
          · exact hdeliv pr hold hprid
          · rw [List.mem_singleton] at hnew
            rw [hnew] at hprid
            exact absurd hprid hid
        · have hcnt_eq : deliveredCountFor
              { pending := fun k => if k = resp.id then none else st.pending k,
                delivered := st.delivered ++ [(w2, resp)] } n = deliveredCountFor st n := by
            simp only [deliveredCountFor, List.filter_append, List.length_append]
            have hbeq : (resp.id == n) = false := by simp [hid]
            have hfil : (List.filter (fun pr => pr.2.id == n) [(w2, resp)]).length = 0 := by
              simp only [List.filter, hbeq]
              rfl
            rw [hfil]
            exact Nat.add_zero _
          have hpend_eq : (if n = resp.id then none else st.pending n) = st.pending n := by
            rw [if_neg (fun hh => hid (hh.symm))]
          rcases hstate with ⟨hpn, hcnt⟩ | ⟨hpn, hcnt⟩
          · exact Or.inl ⟨by rw [hpend_eq]; exact hpn, by rw [hcnt_eq]; exact hcnt⟩
          · exact Or.inr ⟨by rw [hpend_eq]; exact hpn, by rw [hcnt_eq]; exact hcnt⟩

/-- The whole reader run preserves the per-id correlation invariant. -/
theorem runReader_correlation_invariant (W : Type) (n : Nat) (w : W) (lines : List String) :
    ∀ st : ReaderState W,
      (∀ pr ∈ st.delivered, pr.2.id = n → pr.1 = w) →
      ((st.pending n = some w ∧ deliveredCountFor st n = 0) ∨
       (st.pending n = none ∧ deliveredCountFor st n ≤ 1)) →
      (∀ pr ∈ (runReader st lines).delivered, pr.2.id = n → pr.1 = w) ∧
      (((runReader st lines).pending n = some w ∧
          deliveredCountFor (runReader st lines) n = 0) ∨
       ((runReader st lines).pending n = none ∧
          deliveredCountFor (runReader st lines) n ≤ 1)) := by
  induction lines with
  | nil => exact fun st h1 h2 => ⟨h1, h2⟩
  | cons l rest ih =>
    intro st h1 h2
    have hstep := readerStep_correlation_invariant W n w st l h1 h2
    have hrun := ih (readerStep st l) hstep.1 hstep.2
    simpa only [runReader, List.foldl_cons] using hrun

/-- Claim C4: starting from a state in which waiter w is registered under
correlation id n, however the stdout lines interleave, every delivery for
id n goes to exactly w, at most one such delivery ever happens (a second
response with the same id is dropped because the entry was removed on
first delivery), and the entry for n is afterwards either untouched or
removed. -/
theorem c4_correlation (W : Type) (st : ReaderState W) (lines : List String) (n : Nat) (w : W)
    (hpending : st.pending n = some w) (hdeliv : st.delivered = []) :
    (∀ pr ∈ (runReader st lines).delivered, pr.2.id = n → pr.1 = w) ∧
    deliveredCountFor (runReader st lines) n ≤ 1 ∧
    ((runReader st lines).pending n = some w ∨ (runReader st lines).pending n = none) := by
  have h0 : ∀ pr ∈ st.delivered, pr.2.id = n → pr.1 = w := by
    rw [hdeliv]
    intro pr h
    exact absurd h (List.not_mem_nil pr)
  have hc0 : deliveredCountFor st n = 0 := by simp [deliveredCountFor, hdeliv]
  have h := runReader_correlation_invariant W n w lines st h0 (Or.inl ⟨hpending, hc0⟩)
  refine ⟨h.1, ?_, ?_⟩
  · rcases h.2 with ⟨_, hc⟩ | ⟨_, hc⟩
    · omega
    · exact hc
  · rcases h.2 with ⟨hp, _⟩ | ⟨hp, _⟩
    · exact Or.inl hp
    · exact Or.inr hp

/-- Witness for C4: a duplicated response line for id 1 delivers once. -/
theorem c4_witness :
    sampleReaderState.pending 1 = some 0 ∧
    (runReader sampleReaderState [sampleLine1, sampleLine1]).delivered
      = [(0, { id := 1, ok := true, result := none, error := none })] ∧
    ((∀ pr ∈ (runReader sampleReaderState [sampleLine1, sampleLine1]).delivered,
        pr.2.id = 1 → pr.1 = 0) ∧
      deliveredCountFor (runReader sampleReaderState [sampleLine1, sampleLine1]) 1 ≤ 1 ∧
      ((runReader sampleReaderState [sampleLine1, sampleLine1]).pending 1 = some 0 ∨
       (runReader sampleReaderState [sampleLine1, sampleLine1]).pending 1 = none)) :=
  ⟨rfl, rfl, c4_correlation Nat sampleReaderState [sampleLine1, sampleLine1] 1 0 rfl rfl⟩

/-! ## Claim C1 -/

/-- Induction core for C1: if id n is pending and no stdout line decodes
to a response with id n, the whole reader run keeps the entry for n in
the pending table and never delivers anything to its waiter. -/
theorem c1_aux (W : Type) (n : Nat) (w : W) (lines : List String) :
    ∀ st : ReaderState W, st.pending n = some w →
      (∀ pr ∈ st.delivered, pr.2.id ≠ n) →
      (∀ l ∈ lines, ∀ r, workerResponseFromStr l = some r → r.id ≠ n) →
      (runReader st lines).pending n = some w ∧
      ∀ pr ∈ (runReader st lines).delivered, pr.2.id ≠ n := by
  induction lines with
  | nil => exact fun st h1 h2 _ => ⟨h1, h2⟩
  | cons l rest ih =>
    intro st h1 h2 h3
    have hstep : (readerStep st l).pending n = some w ∧
        ∀ pr ∈ (readerStep st l).delivered, pr.2.id ≠ n := by
      unfold readerStep
      cases hdec : workerResponseFromStr l with
      | none => exact ⟨h1, h2⟩
      | some resp =>
        dsimp only
        have hrn : resp.id ≠ n := h3 l (List.mem_cons_self l rest) resp hdec
        cases hp : st.pending resp.id with
        | none => exact ⟨h1, h2⟩
        | some w2 =>
          dsimp only
          constructor
          · rw [if_neg (fun hh : n = resp.id => hrn hh.symm)]
            exact h1
          · intro pr hmem
            rcases List.mem_append.mp hmem with hold | hnew
            · exact h2 pr hold
            · rw [List.mem_singleton] at hnew
              rw [hnew]
              exact hrn
    have hrest : ∀ l2 ∈ rest, ∀ r, workerResponseFromStr l2 = some r → r.id ≠ n :=
      fun l2 hl2 => h3 l2 (List.mem_cons_of_mem l hl2)
    have h := ih (readerStep st l) hstep.1 hstep.2 hrest
    simpa only [runReader, List.foldl_cons] using h

/-- Claim C1 (what the code actually does at the failing input): when the
worker process exits, stdout reaches EOF after finitely many lines and
the reader thread simply ends its loop.  For every request id n that was
outstanding and never answered, the pending entry is still in the table
after the run and no delivery was ever made to its waiter: the pending
table is not drained, no synthetic InternalError is delivered by the
channel, and the caller keeps waiting.  This contradicts the claim that
every pending caller is completed with an InternalError and the table is
cleared. -/
theorem c1_worker_exit_leaves_pending (W : Type) (st : ReaderState W) (lines : List String)
    (n : Nat) (w : W) (hpending : st.pending n = some w)
    (hdeliv : ∀ pr ∈ st.delivered, pr.2.id ≠ n)
    (hnoresp : ∀ l ∈ lines, ∀ r, workerResponseFromStr l = some r → r.id ≠ n) :
    (runReader st lines).pending n = some w ∧
    ∀ pr ∈ (runReader st lines).delivered, pr.2.id ≠ n :=
  c1_aux W n w lines st hpending hdeliv hnoresp

/-- Witness for C1: the worker answers id 2 and exits while id 1 is
outstanding; waiter 20 is completed, waiter 10 is left pending forever. -/
theorem c1_witness :
    sampleReaderState2.pending 1 = some 10 ∧
    (runReader sampleReaderState2 [sampleLine2]).delivered
      = [(20, { id := 2, ok := true, result := none, error := none })] ∧
    (runReader sampleReaderState2 [sampleLine2]).pending 1 = some 10 ∧
    (∀ pr ∈ (runReader sampleReaderState2 [sampleLine2]).delivered, pr.2.id ≠ 1) :=
  have h := c1_worker_exit_leaves_pending Nat sampleReaderState2 [sampleLine2] 1 10 rfl
    (fun pr hmem => absurd hmem (List.not_mem_nil pr))
    (fun l hl r hr => by
      rw [List.mem_singleton] at hl
      subst hl
      rw [show workerResponseFromStr sampleLine2
          = some { id := 2, ok := true, result := none, error := none } from rfl] at hr
      rw [← Option.some.inj hr]
      decide)
  ⟨rfl, rfl, h.1, h.2⟩
